import Mathlib

/-!
Formal model of the account-abstraction demo page (`src/app/page.tsx`):
the component's view-state, the external SDK capabilities it calls, and the
page's asynchronous handlers (`fetchBalance`, `fetchUserInfo`, the
account-load effect `loadUserData`, `executeTxNative`, `executeTxEthers`).

Modelling conventions:
* Component state hooks become the record `AppState`; console output is a
  `List String` log carried in `World`.
* External SDK calls are deterministic capabilities in `Env`; a call that can
  reject or throw returns `Except Err _`.
* Each `async` handler is a total Lean function returning an `ExecResult`:
  the final world, the list of states observable at each `await` suspension
  point (in order), and the error escaping the handler uncaught, if any.
  All translated control flow (optional chaining, `|| null`, truthiness of
  strings and objects, `try`/`catch`/`finally`) follows the TypeScript source.
-/

namespace AAConnect

/-- Error value thrown or rejected by an external SDK call (opaque payload). -/
abbrev Err := String

/-- The payload of a sponsored user operation. The page never inspects it, only
checks its presence; a JS object is always truthy, so presence (`Option`)
decides the `userOp &&` test. Abstracted as its serialized form. -/
abbrev UserOp := String

/-- Profile mapping returned by the auth accessor; the page reads `name` and
`avatar`. -/
structure UserInfo where
  name : Option String
  avatar : Option String
  deriving DecidableEq, Repr

/-- The six state hooks of the `Home` component (page.tsx lines 35-40). -/
structure AppState where
  userAddress : String
  userInfo : Option UserInfo
  balance : Option String
  recipientAddress : String
  isSending : Bool
  transactionHash : Option String
  deriving DecidableEq, Repr

/-- Component state together with the console log (entries are the literal
message prefixes of the `console.log/warn/error` calls in the source). -/
structure World where
  state : AppState
  log : List String
  deriving DecidableEq, Repr

/-- The transaction object built by `executeTxNative` (page.tsx 136-140).
The source field `to` is a reserved word in Lean and is spelled `toAddr`. -/
structure TxNative where
  toAddr : String
  value : String
  data : String
  deriving DecidableEq, Repr

/-- The transaction object built by `executeTxEthers` (page.tsx 176-179).
The source field `to` is spelled `toAddr`. -/
structure TxEthers where
  toAddr : String
  value : String
  deriving DecidableEq, Repr

/-- An ethers transaction receipt; the page only reads its `hash`. -/
structure TxReceipt where
  hash : String
  deriving DecidableEq, Repr

/-- An ethers transaction response: `wait()` resolves an optional receipt or
rejects. -/
structure TxResponse where
  wait : Except Err (Option TxReceipt)
  deriving Repr

/-- An ethers signer as used by the page: `sendTransaction` resolves a
response or rejects. -/
structure Signer where
  sendTransaction : TxEthers → Except Err TxResponse

/-- The `verifyingPaymasterGasless` variant of a fee-quote result: its
`userOp` payload and `userOpHash`, either of which may be absent. -/
structure GaslessVariant where
  userOp : Option UserOp
  userOpHash : Option String
  deriving DecidableEq, Repr

/-- Result of `smartAccount.getFeeQuotes`; the page only reads the
sponsored-gas variant, which may be absent. -/
structure FeeQuotesResult where
  verifyingPaymasterGasless : Option GaslessVariant
  deriving DecidableEq, Repr

/-- The smart-account handle (plus the signer of the `BrowserProvider` that
page.tsx 52-60 wraps around it: `customProvider` exists exactly when the
smart account does, so its `getSigner` lives here). -/
structure SmartAccount where
  getAddress : Except Err String
  getFeeQuotes : TxNative → Except Err FeeQuotesResult
  sendUserOperation : UserOp → String → Except Err (Option String)
  getSigner : Except Err Signer

/-- The external context the component reads: connection flag, smart-account
handle, read-only chain client, auth accessor, and the two pure formatting
helpers imported from outside this file's source (`formatEther` from viem,
`formatBalance` from the repo's util module, which is not part of the source
under verification; both are kept abstract since no claim constrains their
output). -/
structure Env where
  isConnected : Bool
  smartAccount : Option SmartAccount
  publicClient : Option (String → Except Err Nat)
  getUserInfo : Option (Except Err (Option UserInfo))
  formatEther : Nat → String
  formatBalance : String → String

/-- JS truthiness of an optional string: null/undefined and the empty string
are falsy. -/
def strTruthy : Option String → Bool
  | some s => !s.isEmpty
  | none => false

/-- `x || null` applied to an optional string (page.tsx 152). -/
def jsOrNull : Option String → Option String
  | some s => if s.isEmpty then none else some s
  | none => none

/-- `txReceipt?.hash || null` (page.tsx 184). -/
def receiptHashOrNull : Option TxReceipt → Option String
  | some rc => if rc.hash.isEmpty then none else some rc.hash
  | none => none

/-- Splits a character list at the first dot, if any. -/
def splitDot : List Char → List Char × Option (List Char)
  | [] => ([], none)
  | c :: cs =>
    if c = '.' then ([], some cs)
    else
      let r := splitDot cs
      (c :: r.1, r.2)

/-- Reads a digit list as a natural number (accumulator form). -/
def digitsToNat (acc : Nat) : List Char → Nat
  | [] => acc
  | c :: cs => digitsToNat (acc * 10 + (c.toNat - 48)) cs

/-- viem's `parseEther`, restricted to the plain non-negative decimal literals
the page passes to it: the integer part scaled by 10^18 plus the fractional
part right-padded to 18 digits. -/
def parseEther (s : String) : Nat :=
  let parts := splitDot s.data
  let intPart := digitsToNat 0 parts.1
  match parts.2 with
  | none => intPart * 10 ^ 18
  | some frac => intPart * 10 ^ 18 + digitsToNat 0 ((frac ++ List.replicate 18 '0').take 18)

/-- The transaction object built by `executeTxNative` (page.tsx 136-140):
recipient from state, `parseEther("0.01").toString()`, empty payload. -/
def nativeTx (s : AppState) : TxNative :=
  { toAddr := s.recipientAddress, value := Nat.repr (parseEther ("0.01")), data := ("0x") }

/-- The transaction object built by `executeTxEthers` (page.tsx 176-179):
same recipient and amount, no payload field. -/
def ethersTx (s : AppState) : TxEthers :=
  { toAddr := s.recipientAddress, value := Nat.repr (parseEther ("0.01")) }

/-- Log entry of page.tsx 80. -/
def balanceErrMsg : String := ("error: Error fetching balance:")

/-- Log entry of page.tsx 90 (`console.log(typeof getUserInfo)` in the
callable branch). -/
def typeofLogMsg : String := ("log: function")

/-- Log entry of page.tsx 95. -/
def infoNullMsg : String := ("warn: getUserInfo returned null or undefined.")

/-- Log entry of page.tsx 98. -/
def infoFailMsg : String := ("warn: getUserInfo failed:")

/-- Log entry of page.tsx 101. -/
def infoSkipMsg : String := ("warn: Skipping getUserInfo: Function is not available.")

/-- Log entry of page.tsx 115. -/
def loadErrMsg : String := ("error: Error loading account data:")

/-- Log entry of page.tsx 157. -/
def userOpUndefMsg : String := ("error: User operation is undefined")

/-- Log entry of page.tsx 155. -/
def txSentMsg : String := ("log: Transaction sent:")

/-- Log entry of page.tsx 160. -/
def nativeFailMsg : String := ("error: Failed to send transaction:")

/-- Log entry of page.tsx 186. -/
def ethersFailMsg : String := ("error: Failed to send transaction using ethers.js:")

/-- `fetchBalance` (page.tsx 66-85): no-op without a read client; on success a
zero balance is falsy in JS and short-circuits to "0.0" before formatting,
otherwise the queried value is converted and formatted; any thrown error is
caught, logged, and the balance falls back to the literal "0.0". The function
is total: no rejection escapes to the caller. -/
def fetchBalance (env : Env) (address : String) (w : World) : World :=
  match env.publicClient with
  | none => w
  | some getBalance =>
    match getBalance address with
    | .ok v =>
      let balanceInEther := if v = 0 then ("0.0") else env.formatEther v
      { w with state := { w.state with balance := some (env.formatBalance balanceInEther) } }
    | .error _ =>
      { w with state := { w.state with balance := some ("0.0") },
               log := w.log ++ [balanceErrMsg] }

/-- `fetchUserInfo` (page.tsx 87-103): skips with a warning when the accessor
is not callable; otherwise logs the accessor's type, calls it, stores a truthy
result, and turns a null result or a thrown error into a warning. Total: no
rejection escapes. -/
def fetchUserInfo (env : Env) (w : World) : World :=
  match env.getUserInfo with
  | some call =>
    let w1 := { w with log := w.log ++ [typeofLogMsg] }
    match call with
    | .ok (some info) => { w1 with state := { w1.state with userInfo := some info } }
    | .ok none => { w1 with log := w1.log ++ [infoNullMsg] }
    | .error _ => { w1 with log := w1.log ++ [infoFailMsg] }
  | none => { w with log := w.log ++ [infoSkipMsg] }

/-- Outcome of running one async handler: final world, the component states
observable at each `await` suspension point (in order), and the error that
escaped the handler uncaught, if any. -/
structure ExecResult where
  final : World
  trace : List AppState
  uncaught : Option Err
  deriving Repr

/-- The `loadUserData` effect body (page.tsx 105-120): no-op unless connected
with a smart account; resolves the address (a rejection is caught and logged),
stores it, then runs `fetchBalance` and `fetchUserInfo` under `Promise.all`.
`fetchUserInfo` contains no `await`, so on the event loop its effects land in
full before `fetchBalance` resumes from its balance query; both functions are
total and touch disjoint state fields, so the composition below is the exact
interleaving. The trace records the suspension at the address resolution. -/
def loadUserData (env : Env) (w : World) : ExecResult :=
  if env.isConnected then
    match env.smartAccount with
    | none => ⟨w, [], none⟩
    | some sa =>
      match sa.getAddress with
      | .error _ => ⟨{ w with log := w.log ++ [loadErrMsg] }, [w.state], none⟩
      | .ok addr =>
        let w1 : World := { w with state := { w.state with userAddress := addr } }
        ⟨fetchBalance env addr (fetchUserInfo env w1), [w.state], none⟩
  else ⟨w, [], none⟩

/-- `executeTxNative` (page.tsx 133-164): sets the busy flag, builds the fixed
transfer, awaits the optional-chained fee-quote call (suspension with the flag
up; a missing account yields an absent result), checks truthiness of `userOp`
and `userOpHash`, and either submits the operation (second suspension) and
stores `result || null`, or logs that the operation is undefined. Every thrown
error is caught and logged; `finally` lowers the flag on all paths. -/
def executeTxNative (env : Env) (w : World) : ExecResult :=
  let s1 : AppState := { w.state with isSending := true }
  let tx := nativeTx w.state
  let fail : ExecResult :=
    ⟨{ w with state := { s1 with isSending := false }, log := w.log ++ [userOpUndefMsg] },
      [s1], none⟩
  match env.smartAccount with
  | none => fail
  | some sa =>
    match sa.getFeeQuotes tx with
    | .error _ =>
      ⟨{ w with state := { s1 with isSending := false }, log := w.log ++ [nativeFailMsg] },
        [s1], none⟩
    | .ok fqr =>
      match fqr.verifyingPaymasterGasless with
      | none => fail
      | some gv =>
        match gv.userOp, gv.userOpHash with
        | some op, some uoh =>
          if uoh.isEmpty then fail
          else
            match sa.sendUserOperation op uoh with
            | .error _ =>
              ⟨{ w with state := { s1 with isSending := false },
                        log := w.log ++ [nativeFailMsg] }, [s1, s1], none⟩
            | .ok r =>
              ⟨{ w with state := { s1 with transactionHash := jsOrNull r, isSending := false },
                        log := w.log ++ [txSentMsg] }, [s1, s1], none⟩
        | some _, none => fail
        | none, _ => fail

/-- `executeTxEthers` (page.tsx 170-190): returns at once without a provider;
otherwise awaits `getSigner()` BEFORE raising the busy flag (first suspension,
flag still at its prior value; a rejection there escapes uncaught), then
raises the flag, sends the fixed transfer, awaits confirmation, and stores
`txReceipt?.hash || null`; errors inside the `try` are caught and logged and
`finally` lowers the flag. -/
def executeTxEthers (env : Env) (w : World) : ExecResult :=
  match env.smartAccount with
  | none => ⟨w, [], none⟩
  | some sa =>
    match sa.getSigner with
    | .error e => ⟨w, [w.state], some e⟩
    | .ok signer =>
      let s1 : AppState := { w.state with isSending := true }
      let tx := ethersTx w.state
      match signer.sendTransaction tx with
      | .error _ =>
        ⟨{ w with state := { s1 with isSending := false }, log := w.log ++ [ethersFailMsg] },
          [w.state, s1], none⟩
      | .ok resp =>
        match resp.wait with
        | .error _ =>
          ⟨{ w with state := { s1 with isSending := false }, log := w.log ++ [ethersFailMsg] },
            [w.state, s1, s1], none⟩
        | .ok orcpt =>
          let s2 : AppState := { s1 with transactionHash := receiptHashOrNull orcpt }
          ⟨{ w with state := { s2 with isSending := false } }, [w.state, s1, s1], none⟩

/-- The `if (userOp && userOpHash)` test of page.tsx 147 as a predicate on the
fee-quote result: the sponsored variant is present, its operation payload is
present, and its hash is truthy. -/
def sponsoredReady (fqr : FeeQuotesResult) : Bool :=
  match fqr.verifyingPaymasterGasless with
  | some gv => gv.userOp.isSome && strTruthy gv.userOpHash
  | none => false

/-- Sample profile returned by the auth accessor in the concrete runs below. -/
def infoSample : UserInfo := { name := some ("Alice"), avatar := none }

/-- An idle component state: connected recipient entered, nothing sent yet. -/
def stateIdle : AppState :=
  { userAddress := "", userInfo := none, balance := none,
    recipientAddress := ("0xRecipient"), isSending := false, transactionHash := none }

/-- Idle state with an empty console. -/
def worldIdle : World := { state := stateIdle, log := [] }

/-- A receipt with a non-empty hash. -/
def receiptSample : TxReceipt := { hash := ("0xReceiptHash") }

/-- A signer whose send resolves a response whose confirmation resolves
`receiptSample`. -/
def signerSample : Signer :=
  { sendTransaction := fun _ => .ok { wait := .ok (some receiptSample) } }

/-- A sponsored variant with both the operation and a non-empty hash. -/
def gaslessSample : GaslessVariant :=
  { userOp := some ("op"), userOpHash := some ("0xUserOpHash") }

/-- A smart account on which every call succeeds. -/
def accountSample : SmartAccount :=
  { getAddress := .ok ("0xSmartAccount"),
    getFeeQuotes := fun _ => .ok { verifyingPaymasterGasless := some gaslessSample },
    sendUserOperation := fun _ _ => .ok (some ("0xTxHash")),
    getSigner := .ok signerSample }

/-- A connected environment on which every external call succeeds. -/
def envSample : Env :=
  { isConnected := true, smartAccount := some accountSample,
    publicClient := some (fun _ => .ok 5),
    getUserInfo := some (.ok (some infoSample)),
    formatEther := fun n => Nat.repr n,
    formatBalance := fun s => s }

/-- `envSample` with a balance query that rejects. -/
def envBalanceFail : Env :=
  { envSample with publicClient := some (fun _ => .error ("boom")) }

/-- An account whose fee-quote result carries no sponsored variant. -/
def accountNoSponsor : SmartAccount :=
  { accountSample with getFeeQuotes := fun _ => .ok { verifyingPaymasterGasless := none } }

/-- `envSample` with `accountNoSponsor`. -/
def envNoSponsor : Env := { envSample with smartAccount := some accountNoSponsor }

/-- An account whose operation submission resolves a null hash. -/
def accountNullResult : SmartAccount :=
  { accountSample with sendUserOperation := fun _ _ => .ok none }

/-- `envSample` with `accountNullResult`. -/
def envNullResult : Env := { envSample with smartAccount := some accountNullResult }

/-- A world in which an earlier send already stored a hash. -/
def worldWithHash : World :=
  { worldIdle with state := { stateIdle with transactionHash := some ("0xOld") } }

/-- A signer whose confirmation resolves a receipt with an empty hash. -/
def signerEmptyHash : Signer :=
  { sendTransaction := fun _ => .ok { wait := .ok (some { hash := "" }) } }

/-- `envSample` with a signer resolving an empty-hash receipt. -/
def envEmptyHash : Env :=
  { envSample with smartAccount := some { accountSample with getSigner := .ok signerEmptyHash } }

/-- `envSample` with no smart account. -/
def envNoAccount : Env := { envSample with smartAccount := none }

/-- `fetchBalance` touches no state field except `balance`. -/
theorem fetchBalance_frame (env : Env) (a : String) (w : World) :
    (fetchBalance env a w).state.userAddress = w.state.userAddress ∧
    (fetchBalance env a w).state.userInfo = w.state.userInfo ∧
    (fetchBalance env a w).state.recipientAddress = w.state.recipientAddress ∧
    (fetchBalance env a w).state.isSending = w.state.isSending ∧
    (fetchBalance env a w).state.transactionHash = w.state.transactionHash := by
  cases hc : env.publicClient with
  | none => simp [fetchBalance, hc]
  | some c =>
    cases hg : c a with
    | ok v => simp [fetchBalance, hc, hg]
    | error e => simp [fetchBalance, hc, hg]

/-- `fetchUserInfo` touches no state field except `userInfo`. -/
theorem fetchUserInfo_frame (env : Env) (w : World) :
    (fetchUserInfo env w).state.userAddress = w.state.userAddress ∧
    (fetchUserInfo env w).state.balance = w.state.balance ∧
    (fetchUserInfo env w).state.recipientAddress = w.state.recipientAddress ∧
    (fetchUserInfo env w).state.isSending = w.state.isSending ∧
    (fetchUserInfo env w).state.transactionHash = w.state.transactionHash := by
  cases hc : env.getUserInfo with
  | none => simp [fetchUserInfo, hc]
  | some call =>
    cases call with
    | ok o => cases o <;> simp [fetchUserInfo, hc]
    | error e => simp [fetchUserInfo, hc]

/-- The balance stored by `fetchBalance` ignores every input field but the
prior balance (kept only on the no-client no-op). -/
theorem fetchBalance_balance_congr (env : Env) (a : String) (w w' : World)
    (h : w.state.balance = w'.state.balance) :
    (fetchBalance env a w).state.balance = (fetchBalance env a w').state.balance := by
  cases hc : env.publicClient with
  | none => simpa [fetchBalance, hc] using h
  | some c =>
    cases hg : c a with
    | ok v => simp [fetchBalance, hc, hg]
    | error e => simp [fetchBalance, hc, hg]

/-- The profile stored by `fetchUserInfo` depends on the input state only
through the prior profile (kept on every non-success path). -/
theorem fetchUserInfo_userInfo_congr (env : Env) (w w' : World)
    (h : w.state.userInfo = w'.state.userInfo) :
    (fetchUserInfo env w).state.userInfo = (fetchUserInfo env w').state.userInfo := by
  cases hc : env.getUserInfo with
  | none => simpa [fetchUserInfo, hc] using h
  | some call =>
    cases call with
    | ok o =>
      cases o with
      | none => simpa [fetchUserInfo, hc] using h
      | some i => simp [fetchUserInfo, hc]
    | error e => simpa [fetchUserInfo, hc] using h

/-- C4: `fetchBalance` is a no-op when no read client is available, and for
every address, on any failure of the balance query it sets `balance` to the
literal string "0.0", appends the error log line, and — being a total
function on `World` — never rejects to its caller. -/
theorem c4_fetch_balance (env : Env) (a : String) (w : World) :
    (env.publicClient = none → fetchBalance env a w = w) ∧
    (∀ c e, env.publicClient = some c → c a = .error e →
      fetchBalance env a w =
        { w with state := { w.state with balance := some ("0.0") },
                 log := w.log ++ [balanceErrMsg] }) := by
  constructor
  · intro hc
    simp [fetchBalance, hc]
  · intro c e hc he
    simp [fetchBalance, hc, he]

/-- C4 witness: a client that rejects yields the literal "0.0" balance and
the logged error. -/
theorem c4_witness :
    fetchBalance envBalanceFail ("0xAddr") worldIdle =
      { worldIdle with state := { worldIdle.state with balance := some ("0.0") },
                       log := worldIdle.log ++ [balanceErrMsg] } :=
  (c4_fetch_balance envBalanceFail ("0xAddr") worldIdle).2
    (fun _ => .error ("boom")) ("boom") rfl rfl

/-- C7: `fetchUserInfo` leaves `userInfo` (indeed the whole state) untouched
when the accessor is not callable, when it returns an empty result, and when
it throws, logging a warning in each case; it stores the profile exactly when
the accessor returns a truthy value. Totality on `World` means no error ever
surfaces. -/
theorem c7_fetch_user_info (env : Env) (w : World) :
    (env.getUserInfo = none →
      (fetchUserInfo env w).state = w.state ∧
      (fetchUserInfo env w).log = w.log ++ [infoSkipMsg]) ∧
    (∀ e, env.getUserInfo = some (.error e) →
      (fetchUserInfo env w).state = w.state ∧
      (fetchUserInfo env w).log = w.log ++ [typeofLogMsg, infoFailMsg]) ∧
    (env.getUserInfo = some (.ok none) →
      (fetchUserInfo env w).state = w.state ∧
      (fetchUserInfo env w).log = w.log ++ [typeofLogMsg, infoNullMsg]) ∧
    (∀ i, env.getUserInfo = some (.ok (some i)) →
      (fetchUserInfo env w).state = { w.state with userInfo := some i } ∧
      (fetchUserInfo env w).log = w.log ++ [typeofLogMsg]) := by
  refine ⟨?_, ?_, ?_, ?_⟩
  · intro hc
    simp [fetchUserInfo, hc]
  · intro e hc
    simp [fetchUserInfo, hc]
  · intro hc
    simp [fetchUserInfo, hc]
  · intro i hc
    simp [fetchUserInfo, hc]

/-- C7 witness: a truthy accessor result is stored into `userInfo`. -/
theorem c7_witness :
    (fetchUserInfo envSample worldIdle).state = { stateIdle with userInfo := some infoSample } :=
  ((c7_fetch_user_info envSample worldIdle).2.2.2 infoSample rfl).1

/-- C2: the account-load orchestrator is a no-op unless connected with a
smart account; otherwise it resolves and stores the account address and runs
the two fetches so that each fetch's own field ends exactly as if that fetch
had run alone (failure of one cannot block or fail the other, both being
total functions over disjoint fields), and no error ever escapes the
orchestrator (`uncaught = none` on every path). -/
theorem c2_load_user_data (env : Env) (w : World) :
    (loadUserData env w).uncaught = none ∧
    (env.isConnected = false → loadUserData env w = ⟨w, [], none⟩) ∧
    (env.smartAccount = none → loadUserData env w = ⟨w, [], none⟩) ∧
    (∀ sa addr, env.isConnected = true → env.smartAccount = some sa →
      sa.getAddress = .ok addr →
      (loadUserData env w).final.state.userAddress = addr ∧
      (loadUserData env w).final.state.balance = (fetchBalance env addr w).state.balance ∧
      (loadUserData env w).final.state.userInfo = (fetchUserInfo env w).state.userInfo) := by
  refine ⟨?_, ?_, ?_, ?_⟩
  · cases hc : env.isConnected with
    | false => simp [loadUserData, hc]
    | true =>
      cases hsa : env.smartAccount with
      | none => simp [loadUserData, hc, hsa]
      | some sa =>
        cases ha : sa.getAddress with
        | ok addr => simp [loadUserData, hc, hsa, ha]
        | error e => simp [loadUserData, hc, hsa, ha]
  · intro hc
    simp [loadUserData, hc]
  · intro hsa
    cases hc : env.isConnected with
    | false => simp [loadUserData, hc]
    | true => simp [loadUserData, hc, hsa]
  · intro sa addr hc hsa ha
    simp only [loadUserData, hc, hsa, ha, if_true]
    refine ⟨?_, ?_, ?_⟩
    · exact ((fetchBalance_frame env addr _).1).trans ((fetchUserInfo_frame env _).1)
    · exact fetchBalance_balance_congr env addr _ w ((fetchUserInfo_frame env _).2.1)
    · exact ((fetchBalance_frame env addr _).2.1).trans
        (fetchUserInfo_userInfo_congr env _ w rfl)

/-- C2 witness: with a rejecting balance query and a succeeding auth
accessor, the failing fetch falls back to "0.0" while the other still stores
the profile — neither blocks the other. -/
theorem c2_witness :
    (loadUserData envBalanceFail worldIdle).final.state.balance = some ("0.0") ∧
    (loadUserData envBalanceFail worldIdle).final.state.userInfo = some infoSample := by
  have h := (c2_load_user_data envBalanceFail worldIdle).2.2.2
    accountSample ("0xSmartAccount") rfl rfl rfl
  exact ⟨h.2.1.trans (by rfl), h.2.2.trans (by rfl)⟩

/-- C9: calling `executeTxNative` with no smart-account handle completes
without any uncaught error: the optional-chained fee-quote call yields an
absent sponsored variant, the undefined-operation error is logged,
`transactionHash` keeps its prior value, and `isSending` ends false. -/
theorem c9_native_no_account (env : Env) (w : World) (hsa : env.smartAccount = none) :
    (executeTxNative env w).uncaught = none ∧
    (executeTxNative env w).final.state.transactionHash = w.state.transactionHash ∧
    (executeTxNative env w).final.state.isSending = false ∧
    (executeTxNative env w).final.log = w.log ++ [userOpUndefMsg] := by
  simp [executeTxNative, hsa]

/-- C9 witness: the concrete no-account run. -/
theorem c9_witness :
    (executeTxNative envNoAccount worldIdle).uncaught = none ∧
    (executeTxNative envNoAccount worldIdle).final.state.transactionHash = none ∧
    (executeTxNative envNoAccount worldIdle).final.state.isSending = false := by
  have h := c9_native_no_account envNoAccount worldIdle rfl
  exact ⟨h.1, h.2.1.trans (by rfl), h.2.2.1⟩

/-- C3: in `executeTxNative`, when the fee-quote call succeeds but the
sponsored-gas variant or its operation payload/hash is absent (falsy), the
run ends with no uncaught error, `transactionHash` untouched, and the
undefined-operation error logged; when the variant is complete and the
submission resolves, the resolved value (through `|| null`) is stored in
`transactionHash`. -/
theorem c3_native_fee_quotes (env : Env) (w : World) (sa : SmartAccount)
    (fqr : FeeQuotesResult) (hsa : env.smartAccount = some sa)
    (hq : sa.getFeeQuotes (nativeTx w.state) = .ok fqr) :
    (sponsoredReady fqr = false →
      (executeTxNative env w).uncaught = none ∧
      (executeTxNative env w).final.state.transactionHash = w.state.transactionHash ∧
      (executeTxNative env w).final.log = w.log ++ [userOpUndefMsg]) ∧
    (∀ gv op uoh r, fqr.verifyingPaymasterGasless = some gv → gv.userOp = some op →
      gv.userOpHash = some uoh → uoh.isEmpty = false →
      sa.sendUserOperation op uoh = .ok r →
      (executeTxNative env w).uncaught = none ∧
      (executeTxNative env w).final.state.transactionHash = jsOrNull r) := by
  constructor
  · intro hnr
    cases hv : fqr.verifyingPaymasterGasless with
    | none => simp [executeTxNative, hsa, hq, hv]
    | some gv =>
      cases hop : gv.userOp with
      | none => simp [executeTxNative, hsa, hq, hv, hop]
      | some op =>
        cases huoh : gv.userOpHash with
        | none => simp [executeTxNative, hsa, hq, hv, hop, huoh]
        | some uoh =>
          have hemp : uoh.isEmpty = true := by
            simpa [sponsoredReady, hv, hop, huoh, strTruthy] using hnr
          simp [executeTxNative, hsa, hq, hv, hop, huoh, hemp]
  · intro gv op uoh r hv hop huoh hemp hsend
    simp [executeTxNative, hsa, hq, hv, hop, huoh, hemp, hsend]

/-- C3 witness: a fee-quote result without the sponsored variant leaves the
hash untouched and raises no error. -/
theorem c3_witness :
    (executeTxNative envNoSponsor worldIdle).uncaught = none ∧
    (executeTxNative envNoSponsor worldIdle).final.state.transactionHash = none := by
  have h := (c3_native_fee_quotes envNoSponsor worldIdle accountNoSponsor
    { verifyingPaymasterGasless := none } rfl rfl).1 rfl
  exact ⟨h.1, h.2.1.trans (by rfl)⟩

/-- C10: each sender modifies only `isSending` and `transactionHash`: on
every execution of `executeTxNative` or `executeTxEthers`, success or
failure, the fields `userAddress`, `userInfo`, `balance` and
`recipientAddress` are unchanged. -/
theorem c10_sender_frame (env : Env) (w : World) :
    ((executeTxNative env w).final.state.userAddress = w.state.userAddress ∧
      (executeTxNative env w).final.state.userInfo = w.state.userInfo ∧
      (executeTxNative env w).final.state.balance = w.state.balance ∧
      (executeTxNative env w).final.state.recipientAddress = w.state.recipientAddress) ∧
    ((executeTxEthers env w).final.state.userAddress = w.state.userAddress ∧
      (executeTxEthers env w).final.state.userInfo = w.state.userInfo ∧
      (executeTxEthers env w).final.state.balance = w.state.balance ∧
      (executeTxEthers env w).final.state.recipientAddress = w.state.recipientAddress) := by
  constructor
  · cases hsa : env.smartAccount with
    | none => simp [executeTxNative, hsa]
    | some sa =>
      cases hq : sa.getFeeQuotes (nativeTx w.state) with
      | error e => simp [executeTxNative, hsa, hq]
      | ok fqr =>
        cases hv : fqr.verifyingPaymasterGasless with
        | none => simp [executeTxNative, hsa, hq, hv]
        | some gv =>
          cases hop : gv.userOp with
          | none => simp [executeTxNative, hsa, hq, hv, hop]
          | some op =>
            cases huoh : gv.userOpHash with
            | none => simp [executeTxNative, hsa, hq, hv, hop, huoh]
            | some uoh =>
              cases hemp : uoh.isEmpty with
              | true => simp [executeTxNative, hsa, hq, hv, hop, huoh, hemp]
              | false =>
                cases hsend : sa.sendUserOperation op uoh with
                | ok r => simp [executeTxNative, hsa, hq, hv, hop, huoh, hemp, hsend]
                | error e => simp [executeTxNative, hsa, hq, hv, hop, huoh, hemp, hsend]
  · cases hsa : env.smartAccount with
    | none => simp [executeTxEthers, hsa]
    | some sa =>
      cases hsg : sa.getSigner with
      | error e => simp [executeTxEthers, hsa, hsg]
      | ok sg =>
        cases hsend : sg.sendTransaction (ethersTx w.state) with
        | error e => simp [executeTxEthers, hsa, hsg, hsend]
        | ok resp =>
          cases hwait : resp.wait with
          | error e => simp [executeTxEthers, hsa, hsg, hsend, hwait]
          | ok orcpt => simp [executeTxEthers, hsa, hsg, hsend, hwait]

/-- C1 counterexample: starting idle, a provider-based send that resolves a
receipt exposes (at its first `await`, the signer acquisition of page.tsx
173, which runs before `setIsSending(true)`) a state with `isSending = false`
strictly between the sender's invocation and its completion — so the busy
flag is NOT true throughout that interval. -/
theorem c1_counterexample :
    worldIdle.state.isSending = false ∧
    (executeTxEthers envSample worldIdle).trace.map (fun st => st.isSending) =
      [false, true, true] ∧
    (executeTxEthers envSample worldIdle).uncaught = none := by
  decide

/-- C1 amended: starting from an idle state, `executeTxNative` has the busy
flag raised at every suspension point and lowers it unconditionally with no
uncaught error; `executeTxEthers` lowers it unconditionally on completion as
well, and has it raised at every suspension point AFTER the signer
acquisition, but at the acquisition suspension itself (its first) the flag is
still false — and with no provider the sender never touches it. -/
theorem c1_busy_flag (env : Env) (w : World) (hidle : w.state.isSending = false) :
    ((∀ st ∈ (executeTxNative env w).trace, st.isSending = true) ∧
      (executeTxNative env w).final.state.isSending = false ∧
      (executeTxNative env w).uncaught = none) ∧
    ((∀ st ∈ (executeTxEthers env w).trace.drop 1, st.isSending = true) ∧
      (∀ st ∈ (executeTxEthers env w).trace.take 1, st.isSending = false) ∧
      (executeTxEthers env w).final.state.isSending = false) := by
  constructor
  · cases hsa : env.smartAccount with
    | none => simp [executeTxNative, hsa]
    | some sa =>
      cases hq : sa.getFeeQuotes (nativeTx w.state) with
      | error e => simp [executeTxNative, hsa, hq]
      | ok fqr =>
        cases hv : fqr.verifyingPaymasterGasless with
        | none => simp [executeTxNative, hsa, hq, hv]
        | some gv =>
          cases hop : gv.userOp with
          | none => simp [executeTxNative, hsa, hq, hv, hop]
          | some op =>
            cases huoh : gv.userOpHash with
            | none => simp [executeTxNative, hsa, hq, hv, hop, huoh]
            | some uoh =>
              cases hemp : uoh.isEmpty with
              | true => simp [executeTxNative, hsa, hq, hv, hop, huoh, hemp]
              | false =>
                cases hsend : sa.sendUserOperation op uoh with
                | ok r => simp [executeTxNative, hsa, hq, hv, hop, huoh, hemp, hsend]
                | error e => simp [executeTxNative, hsa, hq, hv, hop, huoh, hemp, hsend]
  · cases hsa : env.smartAccount with
    | none => simp [executeTxEthers, hsa, hidle]
    | some sa =>
      cases hsg : sa.getSigner with
      | error e => simp [executeTxEthers, hsa, hsg, hidle]
      | ok sg =>
        cases hsend : sg.sendTransaction (ethersTx w.state) with
        | error e => simp [executeTxEthers, hsa, hsg, hsend, hidle]
        | ok resp =>
          cases hwait : resp.wait with
          | error e => simp [executeTxEthers, hsa, hsg, hsend, hwait, hidle]
          | ok orcpt => simp [executeTxEthers, hsa, hsg, hsend, hwait, hidle]

/-- C1 witness: the amended statement at the concrete all-success run from
the idle state. -/
theorem c1_witness :
    (executeTxNative envSample worldIdle).final.state.isSending = false ∧
    (executeTxEthers envSample worldIdle).final.state.isSending = false :=
  ⟨(c1_busy_flag envSample worldIdle rfl).1.2.1,
    (c1_busy_flag envSample worldIdle rfl).2.2.2⟩

/-- C5 counterexample: `transactionHash` CAN be cleared back to null: with a
prior hash stored, a native send whose operation submission resolves a falsy
value stores `result || null = null` (page.tsx 148-154), resetting the state
to unset — "never cleared" is false. -/
theorem c5_counterexample :
    worldWithHash.state.transactionHash = some ("0xOld") ∧
    (executeTxNative envNullResult worldWithHash).uncaught = none ∧
    (executeTxNative envNullResult worldWithHash).final.state.transactionHash = none := by
  decide

/-- C5 amended: `transactionHash` is written only by the two senders'
completed submissions: the fetchers and the orchestrator always preserve it,
and each sender either leaves it at its prior value or stores the value
resolved by its own successful submission coerced through `|| null` — which
is null when the resolved hash/receipt is falsy, so a completed send can
reset the field to unset. -/
theorem c5_hash_persistence (env : Env) (a : String) (w : World) :
    (fetchBalance env a w).state.transactionHash = w.state.transactionHash ∧
    (fetchUserInfo env w).state.transactionHash = w.state.transactionHash ∧
    (loadUserData env w).final.state.transactionHash = w.state.transactionHash ∧
    ((executeTxNative env w).final.state.transactionHash = w.state.transactionHash ∨
      (∃ sa op uoh r, env.smartAccount = some sa ∧ sa.sendUserOperation op uoh = .ok r ∧
        (executeTxNative env w).final.state.transactionHash = jsOrNull r)) ∧
    ((executeTxEthers env w).final.state.transactionHash = w.state.transactionHash ∨
      (∃ sa sg resp orcpt, env.smartAccount = some sa ∧ sa.getSigner = .ok sg ∧
        sg.sendTransaction (ethersTx w.state) = .ok resp ∧ resp.wait = .ok orcpt ∧
        (executeTxEthers env w).final.state.transactionHash = receiptHashOrNull orcpt)) := by
  refine ⟨(fetchBalance_frame env a w).2.2.2.2, (fetchUserInfo_frame env w).2.2.2.2, ?_, ?_, ?_⟩
  · cases hc : env.isConnected with
    | false => simp [loadUserData, hc]
    | true =>
      cases hsa : env.smartAccount with
      | none => simp [loadUserData, hc, hsa]
      | some sa =>
        cases ha : sa.getAddress with
        | error e => simp [loadUserData, hc, hsa, ha]
        | ok addr =>
          simp only [loadUserData, hc, hsa, ha, if_true]
          exact ((fetchBalance_frame env addr _).2.2.2.2).trans
            ((fetchUserInfo_frame env _).2.2.2.2)
  · cases hsa : env.smartAccount with
    | none => left; simp [executeTxNative, hsa]
    | some sa =>
      cases hq : sa.getFeeQuotes (nativeTx w.state) with
      | error e => left; simp [executeTxNative, hsa, hq]
      | ok fqr =>
        cases hv : fqr.verifyingPaymasterGasless with
        | none => left; simp [executeTxNative, hsa, hq, hv]
        | some gv =>
          cases hop : gv.userOp with
          | none => left; simp [executeTxNative, hsa, hq, hv, hop]
          | some op =>
            cases huoh : gv.userOpHash with
            | none => left; simp [executeTxNative, hsa, hq, hv, hop, huoh]
            | some uoh =>
              cases hemp : uoh.isEmpty with
              | true => left; simp [executeTxNative, hsa, hq, hv, hop, huoh, hemp]
              | false =>
                cases hsend : sa.sendUserOperation op uoh with
                | error e =>
                  left; simp [executeTxNative, hsa, hq, hv, hop, huoh, hemp, hsend]
                | ok r =>
                  right
                  exact ⟨sa, op, uoh, r, rfl, hsend,
                    by simp [executeTxNative, hsa, hq, hv, hop, huoh, hemp, hsend]⟩
  · cases hsa : env.smartAccount with
    | none => left; simp [executeTxEthers, hsa]
    | some sa =>
      cases hsg : sa.getSigner with
      | error e => left; simp [executeTxEthers, hsa, hsg]
      | ok sg =>
        cases hsend : sg.sendTransaction (ethersTx w.state) with
        | error e => left; simp [executeTxEthers, hsa, hsg, hsend]
        | ok resp =>
          cases hwait : resp.wait with
          | error e => left; simp [executeTxEthers, hsa, hsg, hsend, hwait]
          | ok orcpt =>
            right
            exact ⟨sa, sg, resp, orcpt, rfl, hsg, hsend, hwait,
              by simp [executeTxEthers, hsa, hsg, hsend, hwait]⟩

/-- C6 counterexample: a provider-based send whose confirmation resolves a
receipt whose `hash` is the empty string stores `txReceipt?.hash || null =
null`, not the receipt's hash `""` — "set to exactly the receipt's hash" is
false for that receipt. -/
theorem c6_counterexample :
    (executeTxEthers envEmptyHash worldIdle).final.state.transactionHash = none ∧
    receiptHashOrNull (some { hash := "" }) = none ∧
    (none : Option String) ≠ some ("") := by
  decide

/-- C6 amended: every provider-based send whose awaited confirmation resolves
a receipt with a truthy (non-empty) hash stores exactly that hash in
`transactionHash`; a falsy hash is coerced to null by `|| null`. -/
theorem c6_ethers_receipt_hash (env : Env) (w : World) (sa : SmartAccount) (sg : Signer)
    (resp : TxResponse) (rcpt : TxReceipt)
    (hsa : env.smartAccount = some sa) (hsg : sa.getSigner = .ok sg)
    (hsend : sg.sendTransaction (ethersTx w.state) = .ok resp)
    (hwait : resp.wait = .ok (some rcpt)) (hne : rcpt.hash.isEmpty = false) :
    (executeTxEthers env w).final.state.transactionHash = some rcpt.hash := by
  simp [executeTxEthers, hsa, hsg, hsend, hwait, receiptHashOrNull, hne]

/-- C6 witness: the concrete all-success run stores the sample receipt's
hash. -/
theorem c6_witness :
    (executeTxEthers envSample worldIdle).final.state.transactionHash =
      some (("0xReceiptHash")) :=
  c6_ethers_receipt_hash envSample worldIdle accountSample signerSample
    { wait := .ok (some receiptSample) } receiptSample rfl rfl rfl rfl rfl

/-- C8: both senders build the transfer with the fixed amount 0.01 native
units — exactly 10^16 base units rendered as a decimal string — addressed to
the user-entered recipient, and only the native sender's transaction carries
the empty payload "0x". -/
theorem c8_fixed_transfer (s : AppState) :
    (nativeTx s).toAddr = s.recipientAddress ∧
    (nativeTx s).value = Nat.repr (10 ^ 16) ∧
    (nativeTx s).value = ("10000000000000000") ∧
    (nativeTx s).data = ("0x") ∧
    (ethersTx s).toAddr = s.recipientAddress ∧
    (ethersTx s).value = (nativeTx s).value := by
  have hp : parseEther ("0.01") = 10 ^ 16 := by decide
  have hr : Nat.repr (10 ^ 16) = ("10000000000000000") := by decide
  exact ⟨rfl, congrArg Nat.repr hp, (congrArg Nat.repr hp).trans hr, rfl, rfl, rfl⟩

end AAConnect
